import Mathlib

/-!
Shallow embedding of the dual-projection core of the env-impact-simulator
backend (src/backend/app/routers/simulate.py).

Python floats are modelled as real numbers (`ℝ`), so arithmetic is exact:
statements the spec qualifies with "within floating-point tolerance" become
exact equalities or inequalities over `ℝ`.  Python exceptions are modelled by
`Except SimError`: an unguarded float division embeds as `divE` (which fails
on a zero denominator, as `ZeroDivisionError` would), `max()` over an empty
generator embeds as `maxYearE` failing, and a raised `HTTPException` embeds as
`SimError.httpException` with its status code.  Display-only description
strings (built with Python f-string formatting) are not modelled; no claim
refers to them.
-/

namespace EnvImpact

/-- The `type` tag of a point of a timeline (`simulate.py`, the literal
strings "observed", "projected_user_scenario", "projected_trend_based"). -/
inductive PointType
  | observed
  | projected_user_scenario
  | projected_trend_based
deriving DecidableEq

/-- One record of the historical series: `{"year": ..., "loss_ha": ...}`. -/
structure HistoricalRecord where
  year : ℤ
  loss_ha : ℝ

/-- One point of a projection timeline: `{"year": ..., "loss_ha": ..., "type": ...}`. -/
structure ProjectionPoint where
  year : ℤ
  loss_ha : ℝ
  type : PointType

/-- The `method` field of a trend result. -/
inductive TrendMethod
  | simple_average
  | linear_trend
  | recent_average
deriving DecidableEq

/-- The result of `calculate_trend_projection` (the display `description`
string is not modelled). `trend_slope` is present only for `linear_trend`. -/
structure TrendResult where
  method : TrendMethod
  annual_loss_ha : ℝ
  trend_slope : Option ℝ

/-- The Python exceptions the embedded code can raise. -/
inductive SimError
  | httpException (status : ℕ)
  | divByZero
  | emptySeq
deriving DecidableEq

/-- Unguarded Python float division: raises `ZeroDivisionError` on a zero
denominator, otherwise the exact quotient. -/
noncomputable def divE (x y : ℝ) : Except SimError ℝ :=
  if y = 0 then .error .divByZero else .ok (x / y)

/-- Python `max(r["year"] for r in historical)`: `ValueError` on an empty
sequence, otherwise the maximum. -/
def maxYearE (historical : List HistoricalRecord) : Except SimError ℤ :=
  match historical.map (·.year) with
  | [] => .error .emptySeq
  | y :: ys => .ok (ys.foldl max y)

/-- Python slice `l[-k:]` (the whole list when it has fewer than `k`
elements, thanks to truncated `ℕ` subtraction). -/
def lastN (k : ℕ) (l : List α) : List α := l.drop (l.length - k)

/-- The window `calculate_trend_projection` regresses over:
`historical[-5:] if len(historical) >= 5 else historical[-3:]`. -/
def trendWindow (historical : List HistoricalRecord) : List HistoricalRecord :=
  if 5 ≤ historical.length then lastN 5 historical else lastN 3 historical

/-- `calculate_trend_projection(historical, target_year, forest_area)`
(simulate.py lines 183-233), translated branch for branch.  The guarded
regression division (`slope`) uses plain `/` because the source checks the
denominator first; the unguarded divisions (the three means and the
intercept) go through `divE`. -/
noncomputable def calculate_trend_projection (historical : List HistoricalRecord)
    (target_year : ℤ) (forest_area : ℝ) : Except SimError TrendResult :=
  if historical.length < 3 then
    match divE ((historical.map (·.loss_ha)).sum) (historical.length : ℝ) with
    | .error e => .error e
    | .ok recent_avg => .ok ⟨.simple_average, recent_avg, none⟩
  else
    let recent_data := trendWindow historical
    let recent_years : List ℤ := recent_data.map (·.year)
    let recent_losses : List ℝ := recent_data.map (·.loss_ha)
    let n : ℕ := recent_years.length
    let sum_x : ℝ := (recent_years.map (fun (x : ℤ) => (x : ℝ))).sum
    let sum_y : ℝ := recent_losses.sum
    let sum_xy : ℝ :=
      ((recent_years.zip recent_losses).map (fun p => (p.1 : ℝ) * p.2)).sum
    let sum_x2 : ℝ := (recent_years.map (fun (x : ℤ) => (x : ℝ) * (x : ℝ))).sum
    if (n : ℝ) * sum_x2 - sum_x * sum_x ≠ 0 then
      let slope := ((n : ℝ) * sum_xy - sum_x * sum_y) /
        ((n : ℝ) * sum_x2 - sum_x * sum_x)
      match divE (sum_y - slope * sum_x) (n : ℝ) with
      | .error e => .error e
      | .ok intercept =>
        let projected_loss := slope * (target_year : ℝ) + intercept
        let max_annual_loss := forest_area * 0.05
        .ok ⟨.linear_trend, max 0 (min projected_loss max_annual_loss), some slope⟩
    else
      match divE recent_losses.sum (recent_losses.length : ℝ) with
      | .error e => .error e
      | .ok avg_loss => .ok ⟨.recent_average, avg_loss, none⟩

/-- The country display metadata `{max_growth_rate, volatility}`. -/
structure CountryParams where
  max_growth_rate : ℝ
  volatility : String

/-- The static `country_params` table of `create_user_scenario_projection`,
with its default `{"max_growth_rate": 0.2, "volatility": "medium"}` for a
country code outside the table. -/
noncomputable def country_params (country_iso : String) : CountryParams :=
  if country_iso = "BRA" then ⟨0.3, "high"⟩
  else if country_iso = "IDN" then ⟨0.25, "high"⟩
  else if country_iso = "PAK" then ⟨0.2, "low"⟩
  else if country_iso = "IND" then ⟨0.15, "medium"⟩
  else if country_iso = "GBR" then ⟨0.1, "very_low"⟩
  else if country_iso = "USA" then ⟨0.1, "low"⟩
  else ⟨0.2, "medium"⟩

/-- `acceleration = (i / years_to_target) ** 1.5` (real exponentiation:
Python computes this in floating point; here it is the exact `rpow`). -/
noncomputable def acceleration (i n : ℕ) : ℝ := ((i : ℝ) / (n : ℝ)) ^ (1.5 : ℝ)

/-- `base_loss = recent_avg * (1 + acceleration * 3)` before the final-year
override. -/
noncomputable def accelBase (recent_avg : ℝ) (n i : ℕ) : ℝ :=
  recent_avg * (1 + acceleration i n * 3)

/-- The sum of the raw acceleration-curve values over the non-final year
indices `1, …, n-1` (what `total_distributed` holds when the final index is
reached). -/
noncomputable def priorCurveSum (avg : ℝ) (n : ℕ) : ℝ :=
  ((List.range' 1 (n - 1)).map (accelBase avg n)).sum

/-- The value appended at index `i` of the accelerating loop: the raw
`base_loss`, overridden on the final index by
`max(base_loss, user_total_loss - total_distributed)`. -/
noncomputable def highStep (recent_avg user_total_loss : ℝ) (n i : ℕ)
    (total_distributed : ℝ) : ℝ :=
  if i = n then max (accelBase recent_avg n i) (user_total_loss - total_distributed)
  else accelBase recent_avg n i

/-- The accelerating loop of `create_user_scenario_projection`
(`for i in range(1, years_to_target + 1)` with the running accumulator
`total_distributed`), emitting the points in order. -/
noncomputable def highLoop (recent_avg user_total_loss : ℝ) (last_year : ℤ)
    (n : ℕ) : ℕ → ℝ → List ProjectionPoint
  | i, total_distributed =>
    if h : n < i then []
    else
      ⟨last_year + (i : ℤ), highStep recent_avg user_total_loss n i total_distributed,
        .projected_user_scenario⟩ ::
        highLoop recent_avg user_total_loss last_year n (i + 1)
          (total_distributed + highStep recent_avg user_total_loss n i total_distributed)
  termination_by i _ => n + 1 - i
  decreasing_by simp_wf; omega

/-- The result of `create_user_scenario_projection` (the display
`description` string is not modelled). -/
structure ScenarioResult where
  method : String
  target_loss_fraction : ℝ
  target_loss_percentage : ℝ
  total_target_loss_ha : ℝ
  years_to_target : ℤ
  projection_timeline : List ProjectionPoint
  parameters_used : CountryParams

/-- `create_user_scenario_projection(historical, target_year, loss_fraction,
forest_area, country_iso)` (simulate.py lines 236-308), translated branch for
branch.  `years_to_target <= 0` raises `HTTPException(400)`; the low-magnitude
branch distributes `user_total_loss / years_to_target` linearly over
`range(1, years_to_target + 1)`; the high-magnitude branch runs the
accelerating loop. -/
noncomputable def create_user_scenario_projection (historical : List HistoricalRecord)
    (target_year : ℤ) (loss_fraction forest_area : ℝ) (country_iso : String) :
    Except SimError ScenarioResult :=
  match maxYearE historical with
  | .error e => .error e
  | .ok last_year =>
    let years_to_target := target_year - last_year
    if years_to_target ≤ 0 then .error (.httpException 400)
    else
      let user_total_loss := forest_area * loss_fraction
      let params := country_params country_iso
      let recent_losses := (lastN 3 historical).map (·.loss_ha)
      match divE recent_losses.sum (recent_losses.length : ℝ) with
      | .error e => .error e
      | .ok recent_avg =>
        if loss_fraction ≤ 0.02 then
          match divE user_total_loss (years_to_target : ℝ) with
          | .error e => .error e
          | .ok annual_loss =>
            .ok { method := "user_scenario"
                  target_loss_fraction := loss_fraction
                  target_loss_percentage := loss_fraction * 100
                  total_target_loss_ha := user_total_loss
                  years_to_target := years_to_target
                  projection_timeline := (List.range' 1 years_to_target.toNat).map
                    fun (i : ℕ) => ⟨last_year + (i : ℤ), annual_loss, .projected_user_scenario⟩
                  parameters_used := params }
        else
          .ok { method := "user_scenario"
                target_loss_fraction := loss_fraction
                target_loss_percentage := loss_fraction * 100
                total_target_loss_ha := user_total_loss
                years_to_target := years_to_target
                projection_timeline :=
                  highLoop recent_avg user_total_loss last_year years_to_target.toNat 1 0
                parameters_used := params }

/-- The comparison marker: either a numeric ratio or the literal
`"infinite"`. -/
inductive Multiplier
  | num (value : ℝ)
  | infinite

/-- Python 3 `round()` to an integer: round half to even. -/
noncomputable def pythonRound (x : ℝ) : ℤ :=
  if Int.fract x < 1 / 2 then ⌊x⌋
  else if 1 / 2 < Int.fract x then ⌊x⌋ + 1
  else if Even ⌊x⌋ then ⌊x⌋ else ⌊x⌋ + 1

/-- Python `round(x, 1)`: one decimal digit. -/
noncomputable def round1 (x : ℝ) : ℝ := (pythonRound (x * 10) : ℝ) / 10

/-- The `user_vs_trend_multiplier` expression of `simulate_forest_loss_dual`'s
comparison block (simulate.py line 410):
`round(user_total_loss / trend_total_loss, 1) if trend_total_loss > 0 else
"infinite"`.  The orchestrator around it only performs I/O and sums the
timelines; the expression itself is pure in its two totals.  The guarded
division is embedded through `divE` so that absence of a fault is a theorem,
not a modelling assumption. -/
noncomputable def user_vs_trend_multiplier (user_total_loss trend_total_loss : ℝ) :
    Except SimError Multiplier :=
  if 0 < trend_total_loss then
    match divE user_total_loss trend_total_loss with
    | .error e => .error e
    | .ok r => .ok (.num (round1 r))
  else .ok .infinite

/-! ### Helper definitions and characterization lemmas -/

/-- The last observed year: the value `max(r["year"] for r in historical)`
returns on a non-empty series. -/
def lastYear (historical : List HistoricalRecord) : ℤ :=
  match historical.map (·.year) with
  | [] => 0
  | y :: ys => ys.foldl max y

/-- The `recent_avg` of `create_user_scenario_projection`: the mean of the
last (up to) 3 historical loss values. -/
noncomputable def recentAvg (historical : List HistoricalRecord) : ℝ :=
  ((lastN 3 historical).map (·.loss_ha)).sum /
    (((lastN 3 historical).map (·.loss_ha)).length : ℝ)

/-! ### The regression quantities of the trend estimator, named

These name the `sum_x`, `sum_y`, `sum_xy`, `sum_x2`, `n`, denominator, slope
and intercept of `calculate_trend_projection`, with exactly the expressions
the function computes, so claims can speak about them. -/

@[reducible] def regN (historical : List HistoricalRecord) : ℕ :=
  ((trendWindow historical).map (·.year)).length

@[reducible] noncomputable def regSumX (historical : List HistoricalRecord) : ℝ :=
  (((trendWindow historical).map (·.year)).map (fun (x : ℤ) => (x : ℝ))).sum

@[reducible] noncomputable def regSumY (historical : List HistoricalRecord) : ℝ :=
  ((trendWindow historical).map (·.loss_ha)).sum

@[reducible] noncomputable def regSumXY (historical : List HistoricalRecord) : ℝ :=
  ((((trendWindow historical).map (·.year)).zip
      ((trendWindow historical).map (·.loss_ha))).map (fun p => (p.1 : ℝ) * p.2)).sum

@[reducible] noncomputable def regSumX2 (historical : List HistoricalRecord) : ℝ :=
  (((trendWindow historical).map (·.year)).map (fun (x : ℤ) => (x : ℝ) * (x : ℝ))).sum

/-- The ordinary-least-squares denominator `n*Σx² − (Σx)²`. -/
@[reducible] noncomputable def regDen (historical : List HistoricalRecord) : ℝ :=
  (regN historical : ℝ) * regSumX2 historical - regSumX historical * regSumX historical

/-- The OLS slope `m = (nΣxy − ΣxΣy) / (nΣx² − (Σx)²)`. -/
@[reducible] noncomputable def regSlope (historical : List HistoricalRecord) : ℝ :=
  ((regN historical : ℝ) * regSumXY historical - regSumX historical * regSumY historical) /
    regDen historical

/-- The OLS intercept `b = (Σy − mΣx) / n`. -/
@[reducible] noncomputable def regIntercept (historical : List HistoricalRecord) : ℝ :=
  (regSumY historical - regSlope historical * regSumX historical) / (regN historical : ℝ)

/-! ### Concrete example inputs, fully evaluated -/

/-- A one-record history: 100 ha lost in 2020. -/
noncomputable def hist1 : List HistoricalRecord := [⟨2020, 100⟩]

/-- A one-record history with a large loss: 1000 ha lost in 2020. -/
noncomputable def histT : List HistoricalRecord := [⟨2020, 1000⟩]

/-! ### Characterization lemmas -/

lemma maxYearE_eq_ok {historical : List HistoricalRecord} (h : historical ≠ []) :
    maxYearE historical = .ok (lastYear historical) := by
  cases historical with
  | nil => exact absurd rfl h
  | cons r rs => simp [maxYearE, lastYear]

lemma divE_ok {x y : ℝ} (h : y ≠ 0) : divE x y = .ok (x / y) := by
  simp [divE, h]

lemma length_lastN (k : ℕ) (l : List α) : (lastN k l).length = min k l.length := by
  simp [lastN]; omega

lemma length_lastN_pos {l : List α} (h : l ≠ []) {k : ℕ} (hk : k ≠ 0) :
    0 < (lastN k l).length := by
  rw [length_lastN]
  have : 0 < l.length := List.length_pos.mpr h
  omega

/-- On a non-empty series past the target check, the low-magnitude branch of
the scenario distributor evaluates to its explicit result record. -/
lemma scenario_eq_low {historical : List HistoricalRecord} {target_year : ℤ}
    {loss_fraction forest_area : ℝ} {country_iso : String}
    (hne : historical ≠ []) (hty : lastYear historical < target_year)
    (hf : loss_fraction ≤ 0.02) :
    create_user_scenario_projection historical target_year loss_fraction forest_area
        country_iso =
      .ok { method := "user_scenario"
            target_loss_fraction := loss_fraction
            target_loss_percentage := loss_fraction * 100
            total_target_loss_ha := forest_area * loss_fraction
            years_to_target := target_year - lastYear historical
            projection_timeline :=
              (List.range' 1 (target_year - lastYear historical).toNat).map
                fun (i : ℕ) => ⟨lastYear historical + (i : ℤ),
                  forest_area * loss_fraction / ((target_year - lastYear historical : ℤ) : ℝ),
                  .projected_user_scenario⟩
            parameters_used := country_params country_iso } := by
  have h1 : ¬ (target_year - lastYear historical ≤ 0) := by omega
  have h2 : (((lastN 3 historical).map (·.loss_ha)).length : ℝ) ≠ 0 := by
    have hlen : 0 < ((lastN 3 historical).map (·.loss_ha)).length := by
      simpa using length_lastN_pos hne (k := 3) (by norm_num)
    exact Nat.cast_ne_zero.mpr (by omega)
  have h3 : ((target_year - lastYear historical : ℤ) : ℝ) ≠ 0 := by
    exact_mod_cast (by omega : (target_year - lastYear historical : ℤ) ≠ 0)
  simp only [create_user_scenario_projection, maxYearE_eq_ok hne, if_neg h1,
    divE_ok h2, divE_ok h3, if_pos hf]

/-- On a non-empty series past the target check, the high-magnitude branch of
the scenario distributor evaluates to its explicit result record. -/
lemma scenario_eq_high {historical : List HistoricalRecord} {target_year : ℤ}
    {loss_fraction forest_area : ℝ} {country_iso : String}
    (hne : historical ≠ []) (hty : lastYear historical < target_year)
    (hf : ¬ loss_fraction ≤ 0.02) :
    create_user_scenario_projection historical target_year loss_fraction forest_area
        country_iso =
      .ok { method := "user_scenario"
            target_loss_fraction := loss_fraction
            target_loss_percentage := loss_fraction * 100
            total_target_loss_ha := forest_area * loss_fraction
            years_to_target := target_year - lastYear historical
            projection_timeline :=
              highLoop (recentAvg historical) (forest_area * loss_fraction)
                (lastYear historical) (target_year - lastYear historical).toNat 1 0
            parameters_used := country_params country_iso } := by
  have h1 : ¬ (target_year - lastYear historical ≤ 0) := by omega
  have h2 : (((lastN 3 historical).map (·.loss_ha)).length : ℝ) ≠ 0 := by
    have hlen : 0 < ((lastN 3 historical).map (·.loss_ha)).length := by
      simpa using length_lastN_pos hne (k := 3) (by norm_num)
    exact Nat.cast_ne_zero.mpr (by omega)
  simp only [create_user_scenario_projection, maxYearE_eq_ok hne, if_neg h1,
    divE_ok h2, if_neg hf]
  rfl

lemma highStep_of_ne {avg total : ℝ} {n i : ℕ} (h : i ≠ n) (dist : ℝ) :
    highStep avg total n i dist = accelBase avg n i := by
  simp [highStep, h]

lemma highStep_last (avg total : ℝ) (n : ℕ) (dist : ℝ) :
    highStep avg total n n dist = max (accelBase avg n n) (total - dist) := by
  simp [highStep]

/-- Closed form of the accelerating loop: from index `i` it emits the raw
acceleration curve on `i, i+1, …, n-1` and then the single reconciled final
point, whose override subtracts everything distributed so far. -/
lemma highLoop_closed (avg total : ℝ) (ly : ℤ) (n i : ℕ) (dist : ℝ)
    (h1 : 1 ≤ i) (h2 : i ≤ n) :
    highLoop avg total ly n i dist =
      ((List.range' i (n - i)).map fun j =>
        ⟨ly + (j : ℤ), accelBase avg n j, .projected_user_scenario⟩) ++
      [⟨ly + (n : ℤ), max (accelBase avg n n)
          (total - (dist + ((List.range' i (n - i)).map (accelBase avg n)).sum)),
        .projected_user_scenario⟩] := by
  have hnl : ¬ n < i := by omega
  by_cases hin : i = n
  · subst hin
    rw [highLoop, dif_neg hnl, highLoop, dif_pos (by omega : i < i + 1)]
    simp [highStep_last, Nat.sub_self]
  · have hlt : i < n := by omega
    have hrec := highLoop_closed avg total ly n (i + 1)
      (dist + accelBase avg n i) (by omega) (by omega)
    rw [highLoop, dif_neg hnl, highStep_of_ne hin, hrec]
    have hrange : List.range' i (n - i) = i :: List.range' (i + 1) (n - (i + 1)) := by
      have : n - i = (n - (i + 1)) + 1 := by omega
      rw [this, List.range'_succ]
    rw [hrange]
    simp only [List.map_cons, List.cons_append, List.sum_cons]
    congr 3
    ring_nf
  termination_by n - i

/-- The full accelerating timeline (`i = 1`, accumulator `0`). -/
lemma highLoop_timeline (avg total : ℝ) (ly : ℤ) {n : ℕ} (hn : 1 ≤ n) :
    highLoop avg total ly n 1 0 =
      ((List.range' 1 (n - 1)).map fun j =>
        ⟨ly + (j : ℤ), accelBase avg n j, .projected_user_scenario⟩) ++
      [⟨ly + (n : ℤ), max (accelBase avg n n)
          (total - ((List.range' 1 (n - 1)).map (accelBase avg n)).sum),
        .projected_user_scenario⟩] := by
  simpa using highLoop_closed avg total ly n 1 0 le_rfl hn

/-- The loss values of the full accelerating timeline. -/
lemma highLoop_losses (avg total : ℝ) (ly : ℤ) {n : ℕ} (hn : 1 ≤ n) :
    (highLoop avg total ly n 1 0).map (·.loss_ha) =
      (List.range' 1 (n - 1)).map (accelBase avg n) ++
      [max (accelBase avg n n)
        (total - ((List.range' 1 (n - 1)).map (accelBase avg n)).sum)] := by
  rw [highLoop_timeline avg total ly hn]
  simp [Function.comp]

lemma acceleration_le (n : ℕ) {i j : ℕ} (h : i ≤ j) :
    acceleration i n ≤ acceleration j n := by
  unfold acceleration
  rcases Nat.eq_zero_or_pos n with hn | hn
  · subst hn; simp
  · have hc : (0 : ℝ) < (n : ℝ) := by exact_mod_cast hn
    exact Real.rpow_le_rpow (by positivity)
      ((div_le_div_iff_of_pos_right hc).mpr (by exact_mod_cast h)) (by norm_num)

lemma accelBase_le {avg : ℝ} (havg : 0 ≤ avg) (n : ℕ) {i j : ℕ} (h : i ≤ j) :
    accelBase avg n i ≤ accelBase avg n j := by
  unfold accelBase
  refine mul_le_mul_of_nonneg_left ?_ havg
  have := acceleration_le n h
  nlinarith

lemma trendWindow_length_pos {historical : List HistoricalRecord}
    (h : 3 ≤ historical.length) : 0 < (trendWindow historical).length := by
  have hne : historical ≠ [] := by rintro rfl; simp at h
  unfold trendWindow
  split
  · exact length_lastN_pos hne (by norm_num)
  · exact length_lastN_pos hne (by norm_num)

lemma regN_cast_ne_zero {historical : List HistoricalRecord}
    (h : 3 ≤ historical.length) : ((regN historical : ℕ) : ℝ) ≠ 0 := by
  have := trendWindow_length_pos h
  unfold regN
  rw [List.length_map]
  exact Nat.cast_ne_zero.mpr (by omega)

/-- Fewer than 3 records: `simple_average` of all available losses. -/
lemma trend_eq_simple {historical : List HistoricalRecord} {target_year : ℤ}
    {forest_area : ℝ} (hne : historical ≠ []) (hlen : historical.length < 3) :
    calculate_trend_projection historical target_year forest_area =
      .ok ⟨.simple_average,
        (historical.map (·.loss_ha)).sum / (historical.length : ℝ), none⟩ := by
  have h0 : ((historical.length : ℕ) : ℝ) ≠ 0 :=
    Nat.cast_ne_zero.mpr (by
      have := List.length_pos.mpr hne
      omega)
  rw [calculate_trend_projection, if_pos hlen, divE, if_neg h0]

/-- At least 3 records and a non-degenerate window: `linear_trend`, rate
`m*target_year + b` clamped through `max 0 (min · (forest_area * 0.05))`. -/
lemma trend_eq_linear {historical : List HistoricalRecord} {target_year : ℤ}
    {forest_area : ℝ} (hlen : ¬ historical.length < 3)
    (hden : regDen historical ≠ 0) :
    calculate_trend_projection historical target_year forest_area =
      .ok ⟨.linear_trend,
        max 0 (min (regSlope historical * (target_year : ℝ) + regIntercept historical)
          (forest_area * 0.05)),
        some (regSlope historical)⟩ := by
  have h3 : 3 ≤ historical.length := by omega
  have hn0 : ((regN historical : ℕ) : ℝ) ≠ 0 := regN_cast_ne_zero h3
  rw [calculate_trend_projection, if_neg hlen]
  dsimp only []
  rw [if_pos hden, divE, if_neg hn0]

/-- At least 3 records but a degenerate window: fall back to
`recent_average`, the mean of the window. -/
lemma trend_eq_recent {historical : List HistoricalRecord} {target_year : ℤ}
    {forest_area : ℝ} (hlen : ¬ historical.length < 3)
    (hden : ¬ regDen historical ≠ 0) :
    calculate_trend_projection historical target_year forest_area =
      .ok ⟨.recent_average,
        ((trendWindow historical).map (·.loss_ha)).sum /
          (((trendWindow historical).map (·.loss_ha)).length : ℝ), none⟩ := by
  have h3 : 3 ≤ historical.length := by omega
  have hw0 : ((((trendWindow historical).map (·.loss_ha)).length : ℕ) : ℝ) ≠ 0 := by
    have := trendWindow_length_pos h3
    rw [List.length_map]
    exact Nat.cast_ne_zero.mpr (by omega)
  rw [calculate_trend_projection, if_neg hlen]
  dsimp only []
  rw [if_neg hden, divE, if_neg hw0]

lemma lastYear_hist1 : lastYear hist1 = 2020 := rfl

lemma recentAvg_hist1 : recentAvg hist1 = 100 := by
  simp [recentAvg, lastN, hist1]

lemma acceleration_self {n : ℕ} (hn : n ≠ 0) : acceleration n n = 1 := by
  unfold acceleration
  rw [div_self (by exact_mod_cast hn), Real.one_rpow]

lemma accelBase_self (avg : ℝ) {n : ℕ} (hn : n ≠ 0) : accelBase avg n n = avg * 4 := by
  unfold accelBase
  rw [acceleration_self hn]
  ring

/-- The high-magnitude scenario on `hist1` with a 50% target one year out:
the acceleration formula yields `4 * recent_avg = 400` on the (single, final)
year, which dwarfs the 5 ha target, and `max` keeps the 400. -/
lemma ex1_eval :
    create_user_scenario_projection hist1 2021 (1/2) 10 "PAK" =
      .ok { method := "user_scenario"
            target_loss_fraction := 1/2
            target_loss_percentage := 50
            total_target_loss_ha := 5
            years_to_target := 1
            projection_timeline := [⟨2021, 400, .projected_user_scenario⟩]
            parameters_used := ⟨0.2, "low"⟩ } := by
  have hne : hist1 ≠ [] := by simp [hist1]
  have hty : lastYear hist1 < 2021 := by rw [lastYear_hist1]; norm_num
  have hf : ¬ (1/2 : ℝ) ≤ 0.02 := by norm_num
  rw [scenario_eq_high hne hty hf, lastYear_hist1, recentAvg_hist1]
  have h1 : ((2021 : ℤ) - 2020).toNat = 1 := rfl
  rw [h1, highLoop_timeline 100 (10 * (1 / 2)) 2020 le_rfl,
    accelBase_self 100 (by norm_num)]
  have hmax : max ((100 : ℝ) * 4) (10 * (1 / 2) - ([] : List ℝ).sum) = 400 := by
    norm_num
  simp only [Nat.sub_self, List.range'_zero, List.map_nil, List.nil_append,
    List.sum_nil]
  norm_num [country_params]
  rw [if_neg (by decide), if_neg (by decide)]

/-- The low-magnitude scenario on `hist1` with a 1% target two years out:
10 ha spread as 5 ha in each of 2021 and 2022. -/
lemma ex2_eval :
    create_user_scenario_projection hist1 2022 0.01 1000 "XYZ" =
      .ok { method := "user_scenario"
            target_loss_fraction := 0.01
            target_loss_percentage := 1
            total_target_loss_ha := 10
            years_to_target := 2
            projection_timeline := [⟨2021, 5, .projected_user_scenario⟩,
                                    ⟨2022, 5, .projected_user_scenario⟩]
            parameters_used := ⟨0.2, "medium"⟩ } := by
  have hne : hist1 ≠ [] := by simp [hist1]
  have hty : lastYear hist1 < 2022 := by rw [lastYear_hist1]; norm_num
  have hf : (0.01 : ℝ) ≤ 0.02 := by norm_num
  rw [scenario_eq_low hne hty hf, lastYear_hist1]
  have h1 : ((2022 : ℤ) - 2020).toNat = 2 := rfl
  rw [h1]
  norm_num [List.range', country_params]
  rw [if_neg (by decide), if_neg (by decide), if_neg (by decide),
    if_neg (by decide), if_neg (by decide), if_neg (by decide)]

/-- The trend estimator on `histT` (one record): the unclamped simple
average, 1000 ha/year. -/
lemma exT_eval :
    calculate_trend_projection histT 2025 10 = .ok ⟨.simple_average, 1000, none⟩ := by
  have hne : histT ≠ [] := by simp [histT]
  rw [trend_eq_simple hne (by simp [histT])]
  norm_num [histT]

lemma trendWindow_subset {historical : List HistoricalRecord} :
    trendWindow historical ⊆ historical := by
  unfold trendWindow
  split
  · exact List.drop_subset _ _
  · exact List.drop_subset _ _

/-- Past a non-empty series, a target year not strictly after the last
observed year raises `HTTPException(400)`. -/
lemma scenario_eq_err {historical : List HistoricalRecord} {target_year : ℤ}
    {loss_fraction forest_area : ℝ} {country_iso : String}
    (hne : historical ≠ []) (hty : ¬ lastYear historical < target_year) :
    create_user_scenario_projection historical target_year loss_fraction forest_area
      country_iso = .error (.httpException 400) := by
  rw [create_user_scenario_projection, maxYearE_eq_ok hne]
  dsimp only []
  rw [if_pos (by omega : target_year - lastYear historical ≤ 0)]

lemma scenario_empty {target_year : ℤ} {loss_fraction forest_area : ℝ}
    {country_iso : String} :
    create_user_scenario_projection [] target_year loss_fraction forest_area
      country_iso = .error .emptySeq := by
  rw [create_user_scenario_projection]
  rfl

/-! ### The claims -/

/-- C5: on every non-empty historical series the scenario distributor rejects
a target year at or before the last observed year with the client-input error
`HTTPException 400` (so no partial result is returned), and for a target year
strictly after the last observed year no error is raised: a full result is
returned. -/
theorem C5_target_year_validation (historical : List HistoricalRecord)
    (target_year : ℤ) (loss_fraction forest_area : ℝ) (country_iso : String)
    (hne : historical ≠ []) :
    (target_year ≤ lastYear historical →
      create_user_scenario_projection historical target_year loss_fraction forest_area
        country_iso = .error (.httpException 400)) ∧
    (lastYear historical < target_year →
      ∃ r, create_user_scenario_projection historical target_year loss_fraction
        forest_area country_iso = .ok r) := by
  constructor
  · intro h
    exact scenario_eq_err hne (by omega)
  · intro h
    by_cases hf : loss_fraction ≤ 0.02
    · exact ⟨_, scenario_eq_low hne h hf⟩
    · exact ⟨_, scenario_eq_high hne h hf⟩

theorem C5_witness :
    (create_user_scenario_projection hist1 2019 (1/2) 10 "PAK" =
      .error (.httpException 400)) ∧
    (∃ r, create_user_scenario_projection hist1 2021 (1/2) 10 "PAK" = .ok r) :=
  ⟨(C5_target_year_validation hist1 2019 (1/2) 10 "PAK" (by simp [hist1])).1
      (by rw [lastYear_hist1]; norm_num),
   (C5_target_year_validation hist1 2021 (1/2) 10 "PAK" (by simp [hist1])).2
      (by rw [lastYear_hist1]; norm_num)⟩

/-- C3: for the low-magnitude policy (`loss_fraction ≤ 0.02`) the scenario
distributor assigns the identical loss `total_target_loss_ha / years_to_target`
to every year from `last_observed_year + 1` through `target_year`, and the
timeline's losses sum exactly to `total_target_loss_ha`. -/
theorem C3_low_branch_linear (historical : List HistoricalRecord)
    (target_year : ℤ) (loss_fraction forest_area : ℝ) (country_iso : String)
    (hne : historical ≠ []) (hty : lastYear historical < target_year)
    (hf : loss_fraction ≤ 0.02) (r : ScenarioResult)
    (hr : create_user_scenario_projection historical target_year loss_fraction
      forest_area country_iso = .ok r) :
    r.projection_timeline =
      (List.range' 1 r.years_to_target.toNat).map
        (fun (i : ℕ) => ⟨lastYear historical + (i : ℤ),
          r.total_target_loss_ha / (r.years_to_target : ℝ),
          .projected_user_scenario⟩) ∧
    (r.projection_timeline.map (·.loss_ha)).sum = r.total_target_loss_ha := by
  rw [scenario_eq_low hne hty hf] at hr
  injection hr with h
  subst h
  refine ⟨rfl, ?_⟩
  have h0 : ((target_year - lastYear historical : ℤ) : ℝ) ≠ 0 := by
    exact_mod_cast (by omega : (target_year - lastYear historical : ℤ) ≠ 0)
  have hcast : (((target_year - lastYear historical).toNat : ℕ) : ℝ) =
      ((target_year - lastYear historical : ℤ) : ℝ) := by
    have := Int.toNat_of_nonneg (by omega : (0:ℤ) ≤ target_year - lastYear historical)
    exact_mod_cast congrArg (fun z : ℤ => (z : ℝ)) this
  simp only [List.map_map]
  rw [show ((fun p : ProjectionPoint => p.loss_ha) ∘ fun i : ℕ =>
      (⟨lastYear historical + (i : ℤ),
        forest_area * loss_fraction / ((target_year - lastYear historical : ℤ) : ℝ),
        .projected_user_scenario⟩ : ProjectionPoint)) =
      (fun _ : ℕ => forest_area * loss_fraction /
        ((target_year - lastYear historical : ℤ) : ℝ)) from rfl]
  rw [List.map_const', List.sum_replicate, List.length_range', nsmul_eq_mul,
    hcast, mul_comm, div_mul_cancel₀ _ h0]

theorem C3_witness :
    ([(⟨2021, 5, .projected_user_scenario⟩ : ProjectionPoint),
      ⟨2022, 5, .projected_user_scenario⟩] =
      (List.range' 1 2).map
        (fun (i : ℕ) => (⟨lastYear hist1 + (i : ℤ), (10 : ℝ) / ((2 : ℤ) : ℝ),
          .projected_user_scenario⟩ : ProjectionPoint))) ∧
    (([(⟨2021, 5, .projected_user_scenario⟩ : ProjectionPoint),
      ⟨2022, 5, .projected_user_scenario⟩].map (·.loss_ha)).sum = (10 : ℝ)) :=
  C3_low_branch_linear hist1 2022 0.01 1000 "XYZ" (by simp [hist1])
    (by rw [lastYear_hist1]; norm_num) (by norm_num) _ ex2_eval

/-- C1 (counterexample): with history `[(2020, 100 ha)]`, forest area 10 ha,
a 50% target for 2021, the timeline's single (final-year) entry is 400 ha —
the acceleration formula's raw output, kept by the `max` — not
`total_target_loss_ha − 0 = 5`, and the timeline sums to 400, not 5. -/
theorem C1_counterexample :
    create_user_scenario_projection hist1 2021 (1/2) 10 "PAK" =
      .ok { method := "user_scenario"
            target_loss_fraction := 1/2
            target_loss_percentage := 50
            total_target_loss_ha := 5
            years_to_target := 1
            projection_timeline := [⟨2021, 400, .projected_user_scenario⟩]
            parameters_used := ⟨0.2, "low"⟩ } ∧
    (400 : ℝ) ≠ 5 :=
  ⟨ex1_eval, by norm_num⟩

/-- C1 (amended): for the high-magnitude policy the final-year entry equals
the `max` of the acceleration formula's raw output and
`total_target_loss_ha − (sum of all prior years' losses)`; consequently the
timeline sums to at least `total_target_loss_ha`, with exact equality
whenever the raw final-year output does not exceed the remaining shortfall
(the claim's unconditional equality fails when the raw output overshoots). -/
theorem C1_final_year_reconciliation (historical : List HistoricalRecord)
    (target_year : ℤ) (loss_fraction forest_area : ℝ) (country_iso : String)
    (hne : historical ≠ []) (hty : lastYear historical < target_year)
    (hf : ¬ loss_fraction ≤ 0.02) (r : ScenarioResult)
    (hr : create_user_scenario_projection historical target_year loss_fraction
      forest_area country_iso = .ok r) :
    (r.projection_timeline.map (·.loss_ha) =
      (List.range' 1 ((target_year - lastYear historical).toNat - 1)).map
        (accelBase (recentAvg historical) (target_year - lastYear historical).toNat) ++
      [max (accelBase (recentAvg historical) (target_year - lastYear historical).toNat
              (target_year - lastYear historical).toNat)
           (r.total_target_loss_ha -
              priorCurveSum (recentAvg historical)
                (target_year - lastYear historical).toNat)]) ∧
    r.total_target_loss_ha ≤ (r.projection_timeline.map (·.loss_ha)).sum ∧
    (accelBase (recentAvg historical) (target_year - lastYear historical).toNat
        (target_year - lastYear historical).toNat ≤
      r.total_target_loss_ha -
        priorCurveSum (recentAvg historical) (target_year - lastYear historical).toNat →
      (r.projection_timeline.map (·.loss_ha)).sum = r.total_target_loss_ha) := by
  rw [scenario_eq_high hne hty hf] at hr
  injection hr with h
  subst h
  have hn : 1 ≤ (target_year - lastYear historical).toNat := by omega
  have hlist := highLoop_losses (recentAvg historical) (forest_area * loss_fraction)
    (lastYear historical) hn
  simp only [priorCurveSum]
  refine ⟨by rw [hlist], ?_, ?_⟩
  · rw [hlist, List.sum_append, List.sum_cons, List.sum_nil, add_zero]
    have := le_max_right
      (accelBase (recentAvg historical) (target_year - lastYear historical).toNat
        (target_year - lastYear historical).toNat)
      (forest_area * loss_fraction -
        ((List.range' 1 ((target_year - lastYear historical).toNat - 1)).map
          (accelBase (recentAvg historical)
            (target_year - lastYear historical).toNat)).sum)
    linarith
  · intro hle
    rw [hlist, List.sum_append, List.sum_cons, List.sum_nil, add_zero,
      max_eq_right hle]
    ring

theorem C1_witness :
    ([(⟨2021, 400, .projected_user_scenario⟩ : ProjectionPoint)].map (·.loss_ha) =
      (List.range' 1 0).map (accelBase (recentAvg hist1) 1) ++
      [max (accelBase (recentAvg hist1) 1 1)
        ((5 : ℝ) - priorCurveSum (recentAvg hist1) 1)]) ∧
    (5 : ℝ) ≤
      ([(⟨2021, 400, .projected_user_scenario⟩ : ProjectionPoint)].map (·.loss_ha)).sum ∧
    (accelBase (recentAvg hist1) 1 1 ≤ (5 : ℝ) - priorCurveSum (recentAvg hist1) 1 →
      ([(⟨2021, 400, .projected_user_scenario⟩ : ProjectionPoint)].map
        (·.loss_ha)).sum = 5) :=
  C1_final_year_reconciliation hist1 2021 (1/2) 10 "PAK" (by simp [hist1])
    (by rw [lastYear_hist1]; norm_num) (by norm_num) _ ex1_eval

/-- C10: for the high-magnitude policy, with a non-negative recent average
and a target year strictly after the last observed one, the timeline's losses
sum to at least `total_target_loss_ha`: the final year takes the `max` of the
acceleration value and the remaining shortfall, so any deviation from the
target total is an overshoot, never an undershoot. -/
theorem C10_sum_never_undershoots (historical : List HistoricalRecord)
    (target_year : ℤ) (loss_fraction forest_area : ℝ) (country_iso : String)
    (hne : historical ≠ []) (hty : lastYear historical < target_year)
    (hf : ¬ loss_fraction ≤ 0.02) (havg : 0 ≤ recentAvg historical)
    (r : ScenarioResult)
    (hr : create_user_scenario_projection historical target_year loss_fraction
      forest_area country_iso = .ok r) :
    r.total_target_loss_ha ≤ (r.projection_timeline.map (·.loss_ha)).sum := by
  rw [scenario_eq_high hne hty hf] at hr
  injection hr with h
  subst h
  dsimp only
  have hn : 1 ≤ (target_year - lastYear historical).toNat := by omega
  rw [highLoop_losses (recentAvg historical) (forest_area * loss_fraction)
    (lastYear historical) hn, List.sum_append, List.sum_cons, List.sum_nil,
    add_zero]
  have := le_max_right
    (accelBase (recentAvg historical) (target_year - lastYear historical).toNat
      (target_year - lastYear historical).toNat)
    (forest_area * loss_fraction -
      ((List.range' 1 ((target_year - lastYear historical).toNat - 1)).map
        (accelBase (recentAvg historical)
          (target_year - lastYear historical).toNat)).sum)
  linarith

theorem C10_witness :
    (5 : ℝ) ≤
      ([(⟨2021, 400, .projected_user_scenario⟩ : ProjectionPoint)].map
        (·.loss_ha)).sum :=
  C10_sum_never_undershoots hist1 2021 (1/2) 10 "PAK" (by simp [hist1])
    (by rw [lastYear_hist1]; norm_num) (by norm_num)
    (by rw [recentAvg_hist1]; norm_num) _ ex1_eval

/-- C7: for the high-magnitude policy, whenever the recent average (the mean
of the last up-to-3 historical losses) is non-negative, the timeline's losses
are non-decreasing from the first projected year through the final year,
including across the final-year reconciliation (which only raises the final
value). -/
theorem C7_high_branch_monotone (historical : List HistoricalRecord)
    (target_year : ℤ) (loss_fraction forest_area : ℝ) (country_iso : String)
    (hne : historical ≠ []) (hty : lastYear historical < target_year)
    (hf : ¬ loss_fraction ≤ 0.02) (havg : 0 ≤ recentAvg historical)
    (r : ScenarioResult)
    (hr : create_user_scenario_projection historical target_year loss_fraction
      forest_area country_iso = .ok r) :
    List.Sorted (· ≤ ·) (r.projection_timeline.map (·.loss_ha)) := by
  rw [scenario_eq_high hne hty hf] at hr
  injection hr with h
  subst h
  have hn : 1 ≤ (target_year - lastYear historical).toNat := by omega
  rw [highLoop_losses (recentAvg historical) (forest_area * loss_fraction)
    (lastYear historical) hn]
  refine List.pairwise_append.mpr ⟨?_, ?_, ?_⟩
  · exact (List.pairwise_le_range' 1 ((target_year - lastYear historical).toNat - 1)).map
      (accelBase (recentAvg historical) (target_year - lastYear historical).toNat)
      (fun a b hab => accelBase_le havg _ hab)
  · simp
  · intro a ha b hb
    obtain ⟨j, hj, rfl⟩ := List.mem_map.mp ha
    have hjn : j < (target_year - lastYear historical).toNat := by
      have := List.mem_range'_1.mp hj
      omega
    rw [List.mem_singleton.mp hb]
    exact le_trans (accelBase_le havg _ (le_of_lt hjn)) (le_max_left _ _)

theorem C7_witness :
    List.Sorted (· ≤ ·)
      ([(⟨2021, 400, .projected_user_scenario⟩ : ProjectionPoint)].map
        (·.loss_ha)) :=
  C7_high_branch_monotone hist1 2021 (1/2) 10 "PAK" (by simp [hist1])
    (by rw [lastYear_hist1]; norm_num) (by norm_num)
    (by rw [recentAvg_hist1]; norm_num) _ ex1_eval

/-- C8: the country identifier only selects the `parameters_used` display
metadata (defaulting to `{0.2, "medium"}` off the six-entry table): for any
two country codes and otherwise identical inputs, the projection timeline,
`total_target_loss_ha` and `years_to_target` are identical. -/
theorem C8_country_is_display_only (historical : List HistoricalRecord)
    (target_year : ℤ) (loss_fraction forest_area : ℝ) (c₁ c₂ : String) :
    (Except.map
        (fun r => (r.projection_timeline, r.total_target_loss_ha, r.years_to_target))
        (create_user_scenario_projection historical target_year loss_fraction
          forest_area c₁) =
      Except.map
        (fun r => (r.projection_timeline, r.total_target_loss_ha, r.years_to_target))
        (create_user_scenario_projection historical target_year loss_fraction
          forest_area c₂)) ∧
    (∀ r, create_user_scenario_projection historical target_year loss_fraction
        forest_area c₁ = .ok r → r.parameters_used = country_params c₁) ∧
    (∀ c : String, c ≠ "BRA" → c ≠ "IDN" → c ≠ "PAK" → c ≠ "IND" → c ≠ "GBR" →
      c ≠ "USA" → country_params c = ⟨0.2, "medium"⟩) := by
  refine ⟨?_, ?_, ?_⟩
  · rcases eq_or_ne historical [] with rfl | hne
    · rw [scenario_empty, scenario_empty]
    · by_cases hty : lastYear historical < target_year
      · by_cases hf : loss_fraction ≤ 0.02
        · rw [scenario_eq_low hne hty hf, scenario_eq_low hne hty hf]
          rfl
        · rw [scenario_eq_high hne hty hf, scenario_eq_high hne hty hf]
          rfl
      · rw [scenario_eq_err hne hty, scenario_eq_err hne hty]
  · intro r hr
    rcases eq_or_ne historical [] with rfl | hne
    · rw [scenario_empty] at hr
      simp at hr
    · by_cases hty : lastYear historical < target_year
      · by_cases hf : loss_fraction ≤ 0.02
        · rw [scenario_eq_low hne hty hf] at hr
          injection hr with h
          subst h
          rfl
        · rw [scenario_eq_high hne hty hf] at hr
          injection hr with h
          subst h
          rfl
      · rw [scenario_eq_err hne hty] at hr
        simp at hr
  · intro c h1 h2 h3 h4 h5 h6
    simp [country_params, h1, h2, h3, h4, h5, h6]

/-- C9: `user_vs_trend_multiplier` equals `round(user_total / trend_total, 1)`
whenever the trend total is strictly positive, is the literal `"infinite"`
marker when the trend total is zero, and never faults: an `.ok` value is
returned for every pair of totals. -/
theorem C9_multiplier_total (user_total_loss trend_total_loss : ℝ) :
    (0 < trend_total_loss →
      user_vs_trend_multiplier user_total_loss trend_total_loss =
        .ok (.num (round1 (user_total_loss / trend_total_loss)))) ∧
    (trend_total_loss = 0 →
      user_vs_trend_multiplier user_total_loss trend_total_loss = .ok .infinite) ∧
    (∃ m, user_vs_trend_multiplier user_total_loss trend_total_loss = .ok m) := by
  refine ⟨?_, ?_, ?_⟩
  · intro h
    rw [user_vs_trend_multiplier, if_pos h, divE_ok (ne_of_gt h)]
  · intro h
    subst h
    rw [user_vs_trend_multiplier, if_neg (lt_irrefl 0)]
  · by_cases h : 0 < trend_total_loss
    · exact ⟨_, by rw [user_vs_trend_multiplier, if_pos h, divE_ok (ne_of_gt h)]⟩
    · exact ⟨_, by rw [user_vs_trend_multiplier, if_neg h]⟩

/-- C2 (counterexample): on the one-record history `[(2020, 1000 ha)]` with
forest area 10 ha, the `simple_average` branch returns `annual_loss_ha =
1000`, far above `forest_area * 0.05 = 0.5` — the averaging branches are not
clamped. -/
theorem C2_counterexample :
    calculate_trend_projection histT 2025 10 = .ok ⟨.simple_average, 1000, none⟩ ∧
    ¬ ((1000 : ℝ) ≤ 10 * 0.05) :=
  ⟨exT_eval, by norm_num⟩

/-- C2 (amended): `annual_loss_ha` is never negative whenever every
historical loss is non-negative, and for the `linear_trend` method it also
never exceeds `forest_area * 0.05` (given a non-negative forest area); the
`simple_average` and `recent_average` methods return unclamped means that can
exceed that cap. -/
theorem C2_trend_bounds (historical : List HistoricalRecord) (target_year : ℤ)
    (forest_area : ℝ) (hnn : ∀ rec ∈ historical, 0 ≤ rec.loss_ha)
    (hfa : 0 ≤ forest_area) (r : TrendResult)
    (hr : calculate_trend_projection historical target_year forest_area = .ok r) :
    0 ≤ r.annual_loss_ha ∧
    (r.method = .linear_trend → r.annual_loss_ha ≤ forest_area * 0.05) := by
  have hne : historical ≠ [] := by
    rintro rfl
    rw [calculate_trend_projection] at hr
    simp [divE] at hr
  by_cases hlen : historical.length < 3
  · rw [trend_eq_simple hne hlen] at hr
    injection hr with h
    subst h
    constructor
    · apply div_nonneg
      · apply List.sum_nonneg
        intro x hx
        obtain ⟨a, ha, rfl⟩ := List.mem_map.mp hx
        exact hnn a ha
      · positivity
    · intro h
      simp at h
  · by_cases hden : regDen historical ≠ 0
    · rw [trend_eq_linear hlen hden] at hr
      injection hr with h
      subst h
      refine ⟨le_max_left 0 _, fun _ => ?_⟩
      exact max_le (mul_nonneg hfa (by norm_num)) (min_le_right _ _)
    · rw [trend_eq_recent hlen hden] at hr
      injection hr with h
      subst h
      constructor
      · apply div_nonneg
        · apply List.sum_nonneg
          intro x hx
          obtain ⟨a, ha, rfl⟩ := List.mem_map.mp hx
          exact hnn a (trendWindow_subset ha)
        · positivity
      · intro h
        simp at h

theorem C2_witness :
    (0 : ℝ) ≤ 1000 ∧
    (TrendMethod.simple_average = TrendMethod.linear_trend →
      (1000 : ℝ) ≤ 10 * 0.05) :=
  C2_trend_bounds histT 2025 10
    (by intro rec h; simp [histT] at h; rw [h]; norm_num) (by norm_num) _ exT_eval

/-- C4: the trend estimator's sample-size policy: under 3 records it is the
`simple_average` of all losses; with 3 or more it regresses over the last-5
(or last-3) window, falling back to the `recent_average` window mean when the
denominator `n*Σx² − (Σx)²` is zero (never surfacing an error), and otherwise
returning `linear_trend` with `m*target_year + b` clamped to
`[0, forest_area * 0.05]`. -/
theorem C4_trend_policy (historical : List HistoricalRecord) (target_year : ℤ)
    (forest_area : ℝ) (hne : historical ≠ []) :
    (historical.length < 3 →
      calculate_trend_projection historical target_year forest_area =
        .ok ⟨.simple_average,
          (historical.map (·.loss_ha)).sum / (historical.length : ℝ), none⟩) ∧
    (3 ≤ historical.length →
      (regDen historical = 0 →
        calculate_trend_projection historical target_year forest_area =
          .ok ⟨.recent_average,
            ((trendWindow historical).map (·.loss_ha)).sum /
              (((trendWindow historical).map (·.loss_ha)).length : ℝ), none⟩) ∧
      (regDen historical ≠ 0 →
        calculate_trend_projection historical target_year forest_area =
          .ok ⟨.linear_trend,
            max 0 (min (regSlope historical * (target_year : ℝ) + regIntercept historical)
              (forest_area * 0.05)),
            some (regSlope historical)⟩)) := by
  refine ⟨fun hlen => trend_eq_simple hne hlen, fun hlen => ⟨?_, ?_⟩⟩
  · intro hden
    exact trend_eq_recent (by omega) (by simp [hden])
  · intro hden
    exact trend_eq_linear (by omega) hden

theorem C4_witness :
    ((1 : ℕ) < 3 →
      calculate_trend_projection histT 2025 10 =
        .ok ⟨.simple_average,
          (histT.map (·.loss_ha)).sum / ((1 : ℕ) : ℝ), none⟩) ∧
    ((3 : ℕ) ≤ 1 →
      (regDen histT = 0 →
        calculate_trend_projection histT 2025 10 =
          .ok ⟨.recent_average,
            ((trendWindow histT).map (·.loss_ha)).sum /
              (((trendWindow histT).map (·.loss_ha)).length : ℝ), none⟩) ∧
      (regDen histT ≠ 0 →
        calculate_trend_projection histT 2025 10 =
          .ok ⟨.linear_trend,
            max 0 (min (regSlope histT * ((2025 : ℤ) : ℝ) + regIntercept histT)
              ((10 : ℝ) * 0.05)),
            some (regSlope histT)⟩)) :=
  C4_trend_policy histT 2025 10 (by simp [histT])

/-- C6: on every historical series with at least one record the trend
estimator never raises: every division is guarded by a non-empty list and a
`TrendResult` is always returned. -/
theorem C6_trend_never_raises (historical : List HistoricalRecord)
    (target_year : ℤ) (forest_area : ℝ) (hne : historical ≠ []) :
    ∃ r, calculate_trend_projection historical target_year forest_area = .ok r := by
  by_cases hlen : historical.length < 3
  · exact ⟨_, trend_eq_simple hne hlen⟩
  · by_cases hden : regDen historical ≠ 0
    · exact ⟨_, trend_eq_linear hlen hden⟩
    · exact ⟨_, trend_eq_recent hlen hden⟩

theorem C6_witness :
    ∃ r, calculate_trend_projection histT 2025 10 = .ok r :=
  C6_trend_never_raises histT 2025 10 (by simp [histT])

end EnvImpact
